import Mathlib

/-!
Shallow embedding of the core of the rubie-development network tool
(Rust sources: src/models.rs, src/scanner.rs, src/killer.rs,
src/disconnect.rs, src/restore.rs, src/ui.rs), together with theorems
settling the specification claims about it.

The Device Registry (a DashMap keyed by MAC-address string in
scanner.rs) is modelled as an association list; DashMap get_mut becomes
an in-place map over the matching entry, DashMap insert a
replace-or-append.  Timestamps (std::time::Instant) are modelled as
natural numbers; elapsed(now, t) = now - t.
-/

/-- Mirror of models.rs DeviceStatus. -/
inductive DeviceStatus where
  | Active
  | Inactive
  | Blocked
  | Unknown
deriving DecidableEq, Repr

/-- Mirror of models.rs DeviceStatus::as_str. -/
def DeviceStatus.asStr : DeviceStatus → String
  | .Active => "Active"
  | .Inactive => "Inactive"
  | .Blocked => "Blocked"
  | .Unknown => "Unknown"

/-- Mirror of the NetworkDevice record as constructed and mutated in
scanner.rs / killer.rs / ui.rs (fields ip_address, mac_address,
hostname, vendor, status, last_arp_time, selected, is_killed). -/
structure NetworkDevice where
  ip_address : String
  mac_address : String
  hostname : String
  vendor : String
  status : DeviceStatus
  last_arp_time : Option Nat
  selected : Bool
  is_killed : Bool
deriving DecidableEq, Repr

/-- The scanner's device registry: DashMap of key (MAC string) to
NetworkDevice, as an association list. -/
abbrev Registry : Type := List (String × NetworkDevice)

/-- Association-list lookup: DashMap get / get_mut hit test. -/
def findDevice (r : Registry) (k : String) : Option NetworkDevice :=
  match r with
  | [] => none
  | e :: rest => if e.1 = k then some e.2 else findDevice rest k

/-- The key set of the registry, in entry order. -/
def regKeys (r : Registry) : List String :=
  r.map Prod.fst

/-- In-place mutation of every entry value (DashMap iter_mut). -/
def mapVals (f : NetworkDevice → NetworkDevice) (r : Registry) : Registry :=
  r.map (fun e => (e.1, f e.2))

/-- In-place mutation of the entry under key k (DashMap get_mut). -/
def updateDevice (r : Registry) (k : String) (f : NetworkDevice → NetworkDevice) : Registry :=
  r.map (fun e => (e.1, if e.1 = k then f e.2 else e.2))

/-- DashMap insert: replace the value under an existing key, otherwise
append a new entry (ui.rs update: devices.insert(ip, device)). -/
def insertDevice (r : Registry) (k : String) (d : NetworkDevice) : Registry :=
  match findDevice r k with
  | some _ => r.map (fun e => (e.1, if e.1 = k then d else e.2))
  | none => r ++ [(k, d)]

/-- One inbound frame attributed to a source MAC and source IP at an
observation time (scanner.rs on_packet_arrival after decoding). -/
structure Observation where
  mac : String
  ip : String
  time : Nat
deriving DecidableEq, Repr

/-- The record created for a previously unknown identity
(scanner.rs on_packet_arrival, else-branch). -/
def newDevice (o : Observation) : NetworkDevice :=
  { ip_address := o.ip
    mac_address := o.mac
    hostname := ""
    vendor := ""
    status := DeviceStatus.Active
    last_arp_time := some o.time
    selected := false
    is_killed := false }

/-- scanner.rs on_packet_arrival registry upsert: on a known MAC update
last_arp_time, status and ip_address in place; on an unknown MAC insert
a fresh record and emit it on the new-device channel (second
component). -/
def upsertObserved (r : Registry) (o : Observation) : Registry × Option NetworkDevice :=
  match findDevice r o.mac with
  | some _ =>
      (updateDevice r o.mac (fun d =>
        { d with last_arp_time := some o.time
                 status := DeviceStatus.Active
                 ip_address := o.ip }), none)
  | none => (r ++ [(o.mac, newDevice o)], some (newDevice o))

/-- Staleness test of scanner.rs start_background_scan: the record has
a last_arp_time and it is more than 60 seconds old. -/
def isStaleAt (now : Nat) (d : NetworkDevice) : Bool :=
  match d.last_arp_time with
  | some t => decide (60 < now - t)
  | none => false

/-- Per-record body of the liveness tick in start_background_scan. -/
def staleDevice (now : Nat) (d : NetworkDevice) : NetworkDevice :=
  if isStaleAt now d then { d with status := DeviceStatus.Inactive } else d

/-- One tick of the liveness monitor (scanner.rs start_background_scan
loop body): demote every stale record to Inactive. -/
def markStale (r : Registry) (now : Nat) : Registry :=
  mapVals (staleDevice now) r

/-- ui.rs render_device_row status column: killed devices display
Blocked; otherwise Active/Inactive display themselves and every other
stored status displays Unknown. -/
def renderStatusText (d : NetworkDevice) : String :=
  if d.is_killed then "Blocked"
  else
    match d.status with
    | DeviceStatus.Active => "Active"
    | DeviceStatus.Inactive => "Inactive"
    | _ => "Unknown"

/- ### Registry mutations reachable in the program -/

/-- disconnect.rs kill_selected_devices per-record body: a selected,
not-yet-Blocked record is set to Blocked. -/
def killSelectedDevice (d : NetworkDevice) : NetworkDevice :=
  if d.selected = true ∧ d.status ≠ DeviceStatus.Blocked then
    { d with status := DeviceStatus.Blocked }
  else d

/-- restore.rs restore_selected_devices per-record body: a selected,
Blocked record is set back to Active. -/
def restoreSelectedDevice (d : NetworkDevice) : NetworkDevice :=
  if d.selected = true ∧ d.status = DeviceStatus.Blocked then
    { d with status := DeviceStatus.Active }
  else d

/-- Every mutation of the device registry that appears in the program:
the listener upsert (scanner.rs on_packet_arrival), a liveness tick
(scanner.rs start_background_scan), the UI buttons of ui.rs
(Disconnect All / Restore All setting is_killed, Select All setting
selected, the receive loop inserting a device), and the
disconnect.rs / restore.rs status sweeps. -/
inductive RegistryOp where
  | observe (o : Observation)
  | livenessTick (now : Nat)
  | disconnectAll
  | restoreAll
  | selectAll (b : Bool)
  | uiInsert (k : String) (d : NetworkDevice)
  | killSelected
  | restoreSelected
deriving Repr

/-- Interpretation of one registry mutation, from the cited source
lines. -/
def applyOp (r : Registry) : RegistryOp → Registry
  | .observe o => (upsertObserved r o).1
  | .livenessTick now => markStale r now
  | .disconnectAll => mapVals (fun d => { d with is_killed := true }) r
  | .restoreAll => mapVals (fun d => { d with is_killed := false }) r
  | .selectAll b => mapVals (fun d => { d with selected := b }) r
  | .uiInsert k d => insertDevice r k d
  | .killSelected => mapVals killSelectedDevice r
  | .restoreSelected => mapVals restoreSelectedDevice r

/-- A whole run of registry mutations. -/
def applyOps (r : Registry) (ops : List RegistryOp) : Registry :=
  ops.foldl applyOp r

/- ### Observation runs and new-device events -/

/-- Process a list of inbound observations through the listener upsert,
collecting every new-device event sent on the channel. -/
def processObservations (r : Registry) : List Observation → Registry × List NetworkDevice
  | [] => (r, [])
  | o :: rest =>
    let step := upsertObserved r o
    let tail := processObservations step.1 rest
    (tail.1, step.2.toList ++ tail.2)

/-- The new-device events attributed to one identity. -/
def eventsFor (m : String) (evs : List NetworkDevice) : List NetworkDevice :=
  evs.filter (fun d => d.mac_address = m)

/- ### ARP frames (killer.rs, disconnect.rs, restore.rs) -/

/-- A 6-byte hardware address (pnet MacAddr). -/
structure Mac6 where
  b0 : Nat
  b1 : Nat
  b2 : Nat
  b3 : Nat
  b4 : Nat
  b5 : Nat
deriving DecidableEq, Repr

/-- A parsed IPv4 address as four octets (std::net::Ipv4Addr). -/
structure Ip4 where
  o0 : Nat
  o1 : Nat
  o2 : Nat
  o3 : Nat
deriving DecidableEq, Repr

/-- MacAddr::zero(). -/
def macZero : Mac6 := ⟨0, 0, 0, 0, 0, 0⟩

/-- MacAddr::broadcast(). -/
def macBroadcast : Mac6 := ⟨255, 255, 255, 255, 255, 255⟩

/-- The field content of one Ethernet/ARP frame as the three identical
send_arp_reply helpers (killer.rs, disconnect.rs, restore.rs) set it:
Ethernet destination and source, ARP operation, and the four ARP
address fields.  operation 1 = Request, 2 = Reply. -/
structure ArpFrame where
  eth_dest : Mac6
  eth_src : Mac6
  operation : Nat
  sender_hw : Mac6
  sender_proto : Ip4
  target_hw : Mac6
  target_proto : Ip4
deriving DecidableEq, Repr

/-- send_arp_reply(tx, iface, source_ip, target_ip, source_mac,
target_mac), as written identically in killer.rs:118, disconnect.rs:102
and restore.rs:83: Ethernet destination = target_mac, source =
source_mac; ARP Reply with sender = (source_mac, source_ip) and
target = (target_mac, target_ip). -/
def sendArpReply (source_ip target_ip : Ip4) (source_mac target_mac : Mac6) : ArpFrame :=
  { eth_dest := target_mac
    eth_src := source_mac
    operation := 2
    sender_hw := source_mac
    sender_proto := source_ip
    target_hw := target_mac
    target_proto := target_ip }

/-- The network interface data the Spoofing Engine reads: its MAC and
its bound IPv4 address. -/
structure KillerIface where
  mac : Mac6
  ipv4 : Ip4
deriving DecidableEq, Repr

/-- A registry record as the Spoofing Engine consumes it: parsed
ip_address, parsed mac_address and the is_killed flag. -/
structure KillerDevice where
  ip : Ip4
  mac : Mac6
  is_killed : Bool
deriving DecidableEq, Repr

/-- killer.rs spoof_target: the two frames sent for one killed device.
source_ip is the interface's own IPv4 address (killer.rs:63);
gatewayIfaceMac is the MAC of a local interface owning the gateway IP
if one exists, with MacAddr::zero() as fallback (killer.rs:107-111).
First frame: send_arp_reply(source_ip, gateway_ip, interface MAC,
victim MAC); second: send_arp_reply(source_ip, victim IP, interface
MAC, resolved gateway MAC). -/
def spoofTarget (iface : KillerIface) (gateway_ip : Ip4) (gatewayIfaceMac : Option Mac6)
    (device : KillerDevice) : List ArpFrame :=
  let source_ip := iface.ipv4
  [ sendArpReply source_ip gateway_ip iface.mac device.mac,
    sendArpReply source_ip device.ip iface.mac (gatewayIfaceMac.getD macZero) ]

/-- Per-device body of the killer.rs spoof_targets loop: spoof the
device exactly when its is_killed flag is set, else send nothing. -/
def tickFramesFor (iface : KillerIface) (gateway_ip : Ip4) (gatewayIfaceMac : Option Mac6)
    (device : KillerDevice) : List ArpFrame :=
  if device.is_killed then spoofTarget iface gateway_ip gatewayIfaceMac device else []

/-- killer.rs spoof_targets: one poisoning tick over the registry. -/
def spoofTargets (iface : KillerIface) (gateway_ip : Ip4) (gatewayIfaceMac : Option Mac6) :
    List KillerDevice → List ArpFrame
  | [] => []
  | d :: rest =>
      tickFramesFor iface gateway_ip gatewayIfaceMac d ++
        spoofTargets iface gateway_ip gatewayIfaceMac rest

/-- disconnect.rs poison_target loop body (lines 66-96): every
iteration of the spawned thread sends the same two forged replies; the
iteration index is ignored, and no flag or registry state is read, so
the output is identical at every tick. -/
def poisonLoopIteration (iface : KillerIface) (gateway_ip : Ip4) (gatewayIfaceMac : Option Mac6)
    (device : KillerDevice) (_tick : Nat) : List ArpFrame :=
  [ sendArpReply iface.ipv4 gateway_ip iface.mac device.mac,
    sendArpReply iface.ipv4 device.ip iface.mac (gatewayIfaceMac.getD macZero) ]

/-- restore.rs get_mac_for_ip: a placeholder that ignores its argument
and always answers Ok(MacAddr::zero()); it consults no registry. -/
def getMacForIp (_ip : Ip4) : Except String Mac6 :=
  Except.ok macZero

/-- restore.rs restore_target at the parsed-address level: resolve the
gateway MAC through get_mac_for_ip, then send the corrective pair
(gateway_ip from gateway_mac to the victim, victim ip from victim mac
to the gateway); Ok is returned with no further qualification. -/
def restoreTarget (gateway_ip : Ip4) (victim_ip : Ip4) (victim_mac : Mac6) :
    Except String (List ArpFrame) :=
  match getMacForIp gateway_ip with
  | Except.error e => Except.error e
  | Except.ok gateway_mac =>
      Except.ok
        [ sendArpReply gateway_ip victim_ip gateway_mac victim_mac,
          sendArpReply victim_ip gateway_ip victim_mac gateway_mac ]

/- ### Subnet sweep (scanner.rs probe_devices) -/

/-- The number of host bits of a CIDR-prefixed IPv4 network. -/
def hostBits (cidr : Nat) : Nat := 32 - cidr

/-- ipnetwork Ipv4Network::network(): the bound address with its host
bits cleared (an IPv4 address as a natural number below 2^32). -/
def networkAddress (ip cidr : Nat) : Nat :=
  ip / 2 ^ hostBits cidr * 2 ^ hostBits cidr

/-- ipnetwork Ipv4Network::iter(): every address of the network from
the network address through the broadcast address, in order. -/
def ipnetworkIter (ip cidr : Nat) : List Nat :=
  (List.range (2 ^ hostBits cidr)).map (fun i => networkAddress ip cidr + i)

/-- scanner.rs probe_devices target enumeration: every address yielded
by the subnet iterator except the interface's own source address (the
loop body sends exactly one ARP request to each remaining address). -/
def sweepTargets (source_ip cidr : Nat) : List Nat :=
  (ipnetworkIter source_ip cidr).filter (fun a => a ≠ source_ip)

/-- Dotted-quad shorthand for IPv4 addresses as naturals. -/
def ipOctets (a b c d : Nat) : Nat :=
  ((a * 256 + b) * 256 + c) * 256 + d

/- ### Byte-level ARP request frame (scanner.rs send_arp_request) -/

/-- The six bytes of a hardware address in wire order. -/
def Mac6.bytes (m : Mac6) : List Nat :=
  [m.b0, m.b1, m.b2, m.b3, m.b4, m.b5]

/-- The four octets of an IPv4 address in wire order. -/
def Ip4.bytes (ip : Ip4) : List Nat :=
  [ip.o0, ip.o1, ip.o2, ip.o3]

/-- All bytes of a MAC are bytes (below 256). -/
abbrev validMac (m : Mac6) : Prop :=
  m.b0 < 256 ∧ m.b1 < 256 ∧ m.b2 < 256 ∧ m.b3 < 256 ∧ m.b4 < 256 ∧ m.b5 < 256

/-- All octets of an IPv4 address are bytes (below 256). -/
abbrev validIp (ip : Ip4) : Prop :=
  ip.o0 < 256 ∧ ip.o1 < 256 ∧ ip.o2 < 256 ∧ ip.o3 < 256

/-- The 28 ARP payload bytes written by scanner.rs send_arp_request:
hardware type Ethernet (0x0001), protocol type IPv4 (0x0800), address
lengths 6 and 4, operation Request (0x0001), sender hardware/protocol
address = the probing interface, target hardware address zero, target
protocol address = probed host. -/
def arpRequestPayload (source_mac : Mac6) (source_ip target_ip : Ip4) : List Nat :=
  [0, 1] ++ [8, 0] ++ [6] ++ [4] ++ [0, 1] ++
    source_mac.bytes ++ source_ip.bytes ++ macZero.bytes ++ target_ip.bytes

/-- The 42 frame bytes written by scanner.rs send_arp_request: Ethernet
destination broadcast, source = interface MAC, ethertype ARP (0x0806),
then the ARP payload. -/
def buildArpRequest (source_mac : Mac6) (source_ip target_ip : Ip4) : List Nat :=
  macBroadcast.bytes ++ source_mac.bytes ++ [8, 6] ++
    arpRequestPayload source_mac source_ip target_ip

/-- Read one byte of a frame buffer. -/
def readByte (bs : List Nat) (i : Nat) : Option Nat :=
  bs.get? i

/-- Read a 6-byte hardware address starting at offset i (the fixed
pnet accessor layout). -/
def readMac (bs : List Nat) (i : Nat) : Option Mac6 := do
  let a ← readByte bs i
  let b ← readByte bs (i + 1)
  let c ← readByte bs (i + 2)
  let d ← readByte bs (i + 3)
  let e ← readByte bs (i + 4)
  let f ← readByte bs (i + 5)
  pure ⟨a, b, c, d, e, f⟩

/-- Read a 4-octet protocol address starting at offset i. -/
def readIp (bs : List Nat) (i : Nat) : Option Ip4 := do
  let a ← readByte bs i
  let b ← readByte bs (i + 1)
  let c ← readByte bs (i + 2)
  let d ← readByte bs (i + 3)
  pure ⟨a, b, c, d⟩

/-- A decoded Ethernet/ARP frame, with the fields the pnet accessors
expose (the listener in scanner.rs on_packet_arrival reads the source
MAC and the ARP sender protocol address through the same accessors). -/
structure DecodedArp where
  eth_dest : Mac6
  eth_src : Mac6
  ethertype : Nat
  operation : Nat
  sender_hw : Mac6
  sender_proto : Ip4
  target_hw : Mac6
  target_proto : Ip4
deriving DecidableEq, Repr

/-- Parse an Ethernet frame carrying ARP, per the pnet packet views
used in scanner.rs on_packet_arrival: EthernetPacket::new requires at
least 14 bytes; an ethertype of 0x0806 selects the ARP view, which
requires a 28-byte payload; every field is a fixed-offset read.  Any
malformed or non-ARP input yields none. -/
def parseArpFrame (bs : List Nat) : Option DecodedArp :=
  if bs.length < 14 then none
  else
    match readByte bs 12, readByte bs 13 with
    | some 8, some 6 =>
        let payload := bs.drop 14
        if payload.length < 28 then none
        else do
          let dst ← readMac bs 0
          let src ← readMac bs 6
          let opHi ← readByte payload 6
          let opLo ← readByte payload 7
          let sh ← readMac payload 8
          let sp ← readIp payload 14
          let th ← readMac payload 18
          let tp ← readIp payload 24
          pure { eth_dest := dst
                 eth_src := src
                 ethertype := 8 * 256 + 6
                 operation := opHi * 256 + opLo
                 sender_hw := sh
                 sender_proto := sp
                 target_hw := th
                 target_proto := tp }
    | _, _ => none

/- ### Concrete instances used by witnesses and counterexamples -/

/-- A discovered device record (the scenario host 192.168.1.5). -/
def devA : NetworkDevice :=
  { ip_address := "192.168.1.5", mac_address := "aa:bb:cc:dd:ee:ff",
    hostname := "", vendor := "", status := DeviceStatus.Active,
    last_arp_time := some 0, selected := false, is_killed := false }

/-- The same record killed, silent since time 0 and stored Blocked. -/
def killedStaleDevice : NetworkDevice :=
  { devA with status := DeviceStatus.Blocked, is_killed := true }

/-- A record whose stored status is Blocked while is_killed is false. -/
def blockedNotKilledDevice : NetworkDevice :=
  { devA with status := DeviceStatus.Blocked, is_killed := false }

/-- First observation of the scenario host. -/
def obsA : Observation :=
  { mac := "aa:bb:cc:dd:ee:ff", ip := "192.168.1.5", time := 10 }

/-- A later observation of the same host under a DHCP-changed IP. -/
def obsB : Observation :=
  { mac := "aa:bb:cc:dd:ee:ff", ip := "192.168.1.7", time := 20 }

/-- The attacking interface MAC. -/
def macA : Mac6 := ⟨2, 1, 3, 4, 5, 6⟩

/-- A gateway hardware address as the registry would hold it from a
prior observation. -/
def trueGatewayMac : Mac6 := ⟨17, 34, 51, 68, 85, 102⟩

/-- The attacking interface: 192.168.1.10. -/
def ifaceA : KillerIface := { mac := macA, ipv4 := ⟨192, 168, 1, 10⟩ }

/-- The default gateway: 192.168.1.1. -/
def gatewayIpA : Ip4 := ⟨192, 168, 1, 1⟩

/-- The scenario victim, flagged killed. -/
def victimA : KillerDevice :=
  { ip := ⟨192, 168, 1, 5⟩, mac := ⟨170, 187, 204, 221, 238, 255⟩, is_killed := true }

/-- The scenario victim after its killed flag transitions to false. -/
def victimRestored : KillerDevice := { victimA with is_killed := false }

/- ### Helper lemmas -/

theorem findDevice_eq_none_iff (r : Registry) (k : String) :
    findDevice r k = none ↔ k ∉ regKeys r := by
  induction r with
  | nil => simp [findDevice, regKeys]
  | cons e rest ih =>
    by_cases h : e.1 = k
    · simp [findDevice, regKeys, h]
    · simp only [findDevice, regKeys, List.map_cons, List.mem_cons, if_neg h, ih, regKeys]
      constructor
      · intro hn hc
        rcases hc with hc | hc
        · exact h hc.symm
        · exact hn hc
      · intro hn hc
        exact hn (Or.inr hc)

theorem regKeys_mapVals (f : NetworkDevice → NetworkDevice) (r : Registry) :
    regKeys (mapVals f r) = regKeys r := by
  induction r with
  | nil => rfl
  | cons e rest ih =>
    simp only [mapVals, regKeys, List.map_cons, List.map_map] at ih ⊢
    exact congrArg (e.1 :: ·) ih

theorem regKeys_updateDevice (r : Registry) (k : String) (f : NetworkDevice → NetworkDevice) :
    regKeys (updateDevice r k f) = regKeys r := by
  induction r with
  | nil => rfl
  | cons e rest ih =>
    simp only [updateDevice, regKeys, List.map_cons, List.map_map] at ih ⊢
    exact congrArg (e.1 :: ·) ih

theorem findDevice_mapVals (f : NetworkDevice → NetworkDevice) (r : Registry) (k : String) :
    findDevice (mapVals f r) k = (findDevice r k).map f := by
  induction r with
  | nil => rfl
  | cons e rest ih =>
    by_cases h : e.1 = k
    · simp [mapVals, findDevice, h]
    · simpa [mapVals, findDevice, h] using ih

theorem findDevice_updateDevice_self (r : Registry) (k : String)
    (f : NetworkDevice → NetworkDevice) :
    findDevice (updateDevice r k f) k = (findDevice r k).map f := by
  induction r with
  | nil => rfl
  | cons e rest ih =>
    by_cases h : e.1 = k
    · simp [updateDevice, findDevice, h]
    · simpa [updateDevice, findDevice, h] using ih

/-- Each single operation either leaves the key list unchanged or
appends one fresh key; nothing is ever removed. -/
theorem regKeys_applyOp (r : Registry) (op : RegistryOp) :
    regKeys (applyOp r op) = regKeys r ∨
      ∃ k, k ∉ regKeys r ∧ regKeys (applyOp r op) = regKeys r ++ [k] := by
  cases op with
  | observe o =>
    unfold applyOp upsertObserved
    cases h : findDevice r o.mac with
    | some d => simp only [h]; exact Or.inl (regKeys_updateDevice r o.mac _)
    | none =>
      simp only [h]
      refine Or.inr ⟨o.mac, (findDevice_eq_none_iff r o.mac).mp h, ?_⟩
      simp [regKeys]
  | livenessTick now => exact Or.inl (regKeys_mapVals _ r)
  | disconnectAll =>
    simp only [applyOp]
    exact Or.inl (regKeys_mapVals _ r)
  | restoreAll =>
    simp only [applyOp]
    exact Or.inl (regKeys_mapVals _ r)
  | selectAll b =>
    simp only [applyOp]
    exact Or.inl (regKeys_mapVals _ r)
  | uiInsert k d =>
    unfold applyOp insertDevice
    cases h : findDevice r k with
    | some d0 =>
      simp only [h]
      left
      induction r with
      | nil => rfl
      | cons e rest ih =>
        simp only [regKeys, List.map_cons, List.map_map] at ih ⊢
        exact congrArg (e.1 :: ·) (by simp [regKeys])
    | none =>
      simp only [h]
      refine Or.inr ⟨k, (findDevice_eq_none_iff r k).mp h, ?_⟩
      simp [regKeys]
  | killSelected => exact Or.inl (regKeys_mapVals _ r)
  | restoreSelected => exact Or.inl (regKeys_mapVals _ r)

theorem regKeys_applyOp_sub (r : Registry) (op : RegistryOp) :
    ∀ k, k ∈ regKeys r → k ∈ regKeys (applyOp r op) := by
  intro k hk
  rcases regKeys_applyOp r op with h | ⟨k2, _, h⟩
  · rwa [h]
  · rw [h]; exact List.mem_append_left _ hk

theorem regKeys_applyOp_nodup (r : Registry) (op : RegistryOp)
    (h : (regKeys r).Nodup) : (regKeys (applyOp r op)).Nodup := by
  rcases regKeys_applyOp r op with he | ⟨k2, hk2, he⟩
  · rwa [he]
  · rw [he]
    simpa [List.nodup_append] using ⟨h, hk2⟩

theorem length_applyOp (r : Registry) (op : RegistryOp) :
    r.length ≤ (applyOp r op).length := by
  have h1 : (regKeys r).length = r.length := by simp [regKeys]
  have h2 : (regKeys (applyOp r op)).length = (applyOp r op).length := by simp [regKeys]
  rcases regKeys_applyOp r op with he | ⟨k2, _, he⟩
  · have := congrArg List.length he
    omega
  · have := congrArg List.length he
    simp only [List.length_append, List.length_cons, List.length_nil] at this
    omega

theorem mem_regKeys_upsert (r : Registry) (o : Observation) (m : String)
    (h : m ∈ regKeys r) : m ∈ regKeys (upsertObserved r o).1 :=
  regKeys_applyOp_sub r (.observe o) m h

theorem self_mem_regKeys_upsert (r : Registry) (o : Observation) :
    o.mac ∈ regKeys (upsertObserved r o).1 := by
  unfold upsertObserved
  cases h : findDevice r o.mac with
  | some d =>
    simp only [h]
    rw [regKeys_updateDevice]
    by_contra hn
    rw [← findDevice_eq_none_iff] at hn
    rw [h] at hn
    exact Option.noConfusion hn
  | none => simp [h, regKeys]

theorem upsert_event_of_mem (r : Registry) (o : Observation)
    (h : o.mac ∈ regKeys r) : (upsertObserved r o).2 = none := by
  unfold upsertObserved
  cases hf : findDevice r o.mac with
  | some d => simp [hf]
  | none =>
    exact absurd h ((findDevice_eq_none_iff r o.mac).mp hf)

theorem eventsFor_nil_of_mem (r : Registry) (obs : List Observation) (m : String)
    (h : m ∈ regKeys r) : eventsFor m (processObservations r obs).2 = [] := by
  induction obs generalizing r with
  | nil => rfl
  | cons o rest ih =>
    unfold processObservations
    have hmem : m ∈ regKeys (upsertObserved r o).1 := mem_regKeys_upsert r o m h
    by_cases hmac : o.mac = m
    · have : (upsertObserved r o).2 = none := by
        apply upsert_event_of_mem
        rw [hmac]; exact h
      simp only [this, Option.toList_none, List.nil_append]
      exact ih _ hmem
    · cases hev : (upsertObserved r o).2 with
      | none =>
        simp only [hev, Option.toList_none, List.nil_append]
        exact ih _ hmem
      | some d =>
        have hd : d.mac_address = o.mac := by
          unfold upsertObserved at hev
          cases hf : findDevice r o.mac with
          | some d0 => rw [hf] at hev; exact Option.noConfusion hev
          | none =>
            rw [hf] at hev
            simp only [Option.some.injEq] at hev
            rw [← hev]
            rfl
        simp only [hev, Option.toList_some, List.singleton_append, eventsFor,
          List.filter_cons]
        rw [if_neg (by simp [hd, hmac])]
        exact ih _ hmem

theorem eventsFor_le_one (r : Registry) (obs : List Observation) (m : String) :
    (eventsFor m (processObservations r obs).2).length ≤ 1 := by
  induction obs generalizing r with
  | nil => simp [processObservations, eventsFor]
  | cons o rest ih =>
    unfold processObservations
    cases hev : (upsertObserved r o).2 with
    | none =>
      simp only [hev, Option.toList_none, List.nil_append]
      exact ih _
    | some d =>
      have hd : d.mac_address = o.mac := by
        unfold upsertObserved at hev
        cases hf : findDevice r o.mac with
        | some d0 => rw [hf] at hev; exact Option.noConfusion hev
        | none =>
          rw [hf] at hev
          simp only [Option.some.injEq] at hev
          rw [← hev]
          rfl
      by_cases hmac : d.mac_address = m
      · have hrest : eventsFor m (processObservations (upsertObserved r o).1 rest).2 = [] := by
          apply eventsFor_nil_of_mem
          rw [← hmac, hd]
          exact self_mem_regKeys_upsert r o
        simp only [eventsFor] at hrest ⊢
        simp [hev, List.filter_cons, hmac, hrest]
      · simp only [eventsFor] at ih ⊢
        simp only [hev, Option.toList_some, List.singleton_append, List.filter_cons]
        rw [if_neg (by simpa using hmac)]
        exact ih _


/- ### Claim theorems -/

/-- Claim C1, counterexample: the Liveness Monitor of scanner.rs
start_background_scan demotes a record whose last_arp_time is more
than 60 seconds old to Inactive even when that record's is_killed flag
is true — at the concrete killed, stale record the stored status after
one tick is Inactive, not Blocked, refuting the claim that killed
records are never set to Inactive. -/
theorem c1_liveness_killed_counterexample :
    killedStaleDevice.is_killed = true
    ∧ findDevice (markStale [("aa:bb:cc:dd:ee:ff", killedStaleDevice)] 100) "aa:bb:cc:dd:ee:ff" =
        some { killedStaleDevice with status := DeviceStatus.Inactive } := by
  decide

/-- Claim C1, amended: a liveness tick maps each registry record
through staleDevice — status becomes Inactive exactly when the record
is stale (last_arp_time present and older than 60 seconds), regardless
of the killed flag, which is left untouched; a killed record still
renders as Blocked in the device table because the display derives
Blocked from is_killed. -/
theorem c1_liveness_amended (r : Registry) (now : Nat) (k : String) (d : NetworkDevice)
    (h : findDevice r k = some d) :
    findDevice (markStale r now) k = some (staleDevice now d)
    ∧ (staleDevice now d).is_killed = d.is_killed
    ∧ (isStaleAt now d = true → (staleDevice now d).status = DeviceStatus.Inactive)
    ∧ (isStaleAt now d = false → (staleDevice now d).status = d.status)
    ∧ (d.is_killed = true → renderStatusText (staleDevice now d) = "Blocked") := by
  refine ⟨?_, ?_, ?_, ?_, ?_⟩
  · rw [markStale, findDevice_mapVals, h]; rfl
  · unfold staleDevice; split <;> rfl
  · intro hs; simp [staleDevice, hs]
  · intro hs; simp [staleDevice, hs]
  · intro hk
    unfold staleDevice
    split <;> simp [renderStatusText, hk]

/-- Witness for the amended C1 theorem at the concrete killed, stale
record and tick time 100. -/
theorem c1_liveness_amended_witness :
    findDevice (markStale [("aa:bb:cc:dd:ee:ff", killedStaleDevice)] 100) "aa:bb:cc:dd:ee:ff" =
      some (staleDevice 100 killedStaleDevice) :=
  (c1_liveness_amended [("aa:bb:cc:dd:ee:ff", killedStaleDevice)] 100 "aa:bb:cc:dd:ee:ff"
    killedStaleDevice (by decide)).1

/-- Claim C2, code bug evidence: killer.rs spoof_target, evaluated at
the scenario input (interface 192.168.1.10, gateway 192.168.1.1,
killed victim 192.168.1.5), does send exactly two ARP replies, but the
sender protocol address of both is the attacker interface's own IPv4
address — not the gateway IP in the victim-directed frame and not the
victim IP in the gateway-directed frame as the claim requires. -/
theorem c2_spoof_sender_ip_bug :
    spoofTarget ifaceA gatewayIpA none victimA =
      [ { eth_dest := victimA.mac, eth_src := ifaceA.mac, operation := 2,
          sender_hw := ifaceA.mac, sender_proto := ifaceA.ipv4,
          target_hw := victimA.mac, target_proto := gatewayIpA },
        { eth_dest := macZero, eth_src := ifaceA.mac, operation := 2,
          sender_hw := ifaceA.mac, sender_proto := ifaceA.ipv4,
          target_hw := macZero, target_proto := victimA.ip } ]
    ∧ ifaceA.ipv4 ≠ gatewayIpA ∧ ifaceA.ipv4 ≠ victimA.ip := by
  decide

/-- Claim C3, code bug evidence: restore.rs get_mac_for_ip ignores its
argument and always answers Ok(MacAddr::zero()) — it consults no
registry — so restore_target announces the gateway IP paired with the
all-zero MAC to the victim and reports plain success, even though a
true gateway MAC (trueGatewayMac) exists; nothing is flagged as
degraded. -/
theorem c3_restore_zero_mac_bug :
    getMacForIp gatewayIpA = Except.ok macZero
    ∧ getMacForIp ⟨10, 0, 0, 1⟩ = getMacForIp gatewayIpA
    ∧ restoreTarget gatewayIpA victimA.ip victimA.mac =
        Except.ok
          [ { eth_dest := victimA.mac, eth_src := macZero, operation := 2,
              sender_hw := macZero, sender_proto := gatewayIpA,
              target_hw := victimA.mac, target_proto := victimA.ip },
            { eth_dest := macZero, eth_src := victimA.mac, operation := 2,
              sender_hw := victimA.mac, sender_proto := victimA.ip,
              target_hw := macZero, target_proto := gatewayIpA } ]
    ∧ macZero ≠ trueGatewayMac :=
  ⟨rfl, rfl, rfl, by decide⟩

/-- Claim C4, counterexample: the disconnect.rs poison_target loop
keeps sending its two forged replies at every iteration — here
iteration 5, far beyond one tick interval — for a device whose killed
flag is false, and its output is identical at every tick because the
loop reads no flag at all. -/
theorem c4_poison_loop_counterexample :
    victimRestored.is_killed = false
    ∧ poisonLoopIteration ifaceA gatewayIpA none victimRestored 5 ≠ []
    ∧ poisonLoopIteration ifaceA gatewayIpA none victimRestored 5 =
        poisonLoopIteration ifaceA gatewayIpA none victimRestored 0 := by
  decide

/-- Claim C4, amended: in the killer.rs tick loop a target receives
its two forged replies in a tick exactly when its is_killed flag is
true in that tick and receives nothing otherwise, and a whole tick
sends two frames per killed record. -/
theorem c4_killer_tick_amended (iface : KillerIface) (gw : Ip4) (gwMac : Option Mac6)
    (d : KillerDevice) (devices : List KillerDevice) :
    (d.is_killed = true → (tickFramesFor iface gw gwMac d).length = 2)
    ∧ (d.is_killed = false → tickFramesFor iface gw gwMac d = [])
    ∧ (spoofTargets iface gw gwMac devices).length =
        2 * devices.countP (fun x => x.is_killed) := by
  refine ⟨?_, ?_, ?_⟩
  · intro h; simp [tickFramesFor, h, spoofTarget]
  · intro h; simp [tickFramesFor, h]
  · induction devices with
    | nil => simp [spoofTargets]
    | cons x rest ih =>
      simp only [spoofTargets, tickFramesFor, List.length_append, List.countP_cons, ih]
      by_cases hx : x.is_killed = true
      · simp only [hx, if_true, spoofTarget, List.length_cons, List.length_nil]
        omega
      · simp only [hx, if_false, List.length_nil]
        simp

/-- Witness for the amended C4 theorem: the killed scenario victim
receives two frames in a tick, the restored one receives none. -/
theorem c4_killer_tick_amended_witness :
    (tickFramesFor ifaceA gatewayIpA none victimA).length = 2
    ∧ tickFramesFor ifaceA gatewayIpA none victimRestored = [] :=
  ⟨(c4_killer_tick_amended ifaceA gatewayIpA none victimA []).1 rfl,
   (c4_killer_tick_amended ifaceA gatewayIpA none victimRestored []).2.1 rfl⟩

/-- Claim C5: the listener upsert of scanner.rs on_packet_arrival
creates an absent identity with status Active, selected and is_killed
false and emits the new-device event; on a present identity it updates
ip_address, last_arp_time and status in place (killed untouched, no
event); and across any run of observations at most one new-device
event is ever emitted per identity. -/
theorem c5_upsert_observed (r : Registry) (o : Observation) (d : NetworkDevice)
    (obs : List Observation) (m : String) :
    (findDevice r o.mac = none →
      (upsertObserved r o).2 = some (newDevice o)
      ∧ findDevice (upsertObserved r o).1 o.mac = some (newDevice o)
      ∧ (newDevice o).status = DeviceStatus.Active
      ∧ (newDevice o).selected = false
      ∧ (newDevice o).is_killed = false)
    ∧ (findDevice r o.mac = some d →
      (upsertObserved r o).2 = none
      ∧ findDevice (upsertObserved r o).1 o.mac =
          some { d with ip_address := o.ip, last_arp_time := some o.time,
                        status := DeviceStatus.Active })
    ∧ (eventsFor m (processObservations r obs).2).length ≤ 1 := by
  refine ⟨?_, ?_, eventsFor_le_one r obs m⟩
  · intro h
    refine ⟨?_, ?_, rfl, rfl, rfl⟩
    · simp [upsertObserved, h]
    · simp only [upsertObserved, h]
      induction r with
      | nil => simp [findDevice]
      | cons e rest ih =>
        by_cases he : e.1 = o.mac
        · exfalso
          simp [findDevice, he] at h
        · simp only [List.cons_append, findDevice, if_neg he]
          apply ih
          simpa [findDevice, he] using h
  · intro h
    constructor
    · simp [upsertObserved, h]
    · simp only [upsertObserved, h]
      rw [findDevice_updateDevice_self, h]
      rfl

/-- Witness for C5: the first observation on an empty registry emits
the new-device event, and the event count for that identity over a
two-observation run stays at most one. -/
theorem c5_upsert_observed_witness :
    (upsertObserved [] obsA).2 = some (newDevice obsA)
    ∧ (eventsFor "aa:bb:cc:dd:ee:ff" (processObservations [] [obsA, obsB]).2).length ≤ 1 :=
  ⟨((c5_upsert_observed [] obsA devA [obsA, obsB] "aa:bb:cc:dd:ee:ff").1 rfl).1,
   (c5_upsert_observed [] obsA devA [obsA, obsB] "aa:bb:cc:dd:ee:ff").2.2⟩

set_option maxRecDepth 8192 in
/-- Claim C6, counterexample: for interface 192.168.1.10/24 the
probe_devices sweep also targets the network address 192.168.1.0 (and
the broadcast address 192.168.1.255), because the ipnetwork iterator
yields every address of the subnet; the claimed target set
192.168.1.1..192.168.1.254 minus .10 is therefore wrong. -/
theorem c6_sweep_counterexample :
    ipOctets 192 168 1 0 ∈ sweepTargets (ipOctets 192 168 1 10) 24
    ∧ ipOctets 192 168 1 255 ∈ sweepTargets (ipOctets 192 168 1 10) 24
    ∧ ipOctets 192 168 1 0 < ipOctets 192 168 1 1 := by
  decide

set_option maxRecDepth 8192 in
/-- Claim C6, amended: for interface 192.168.1.10/24 the sweep's
target set is exactly every address from 192.168.1.0 through
192.168.1.255 except the interface's own 192.168.1.10, each targeted
once (the list has no duplicates and 255 entries). -/
theorem c6_sweep_amended :
    (∀ a : Nat,
      a ∈ sweepTargets (ipOctets 192 168 1 10) 24 ↔
        ipOctets 192 168 1 0 ≤ a ∧ a ≤ ipOctets 192 168 1 255 ∧ a ≠ ipOctets 192 168 1 10)
    ∧ (sweepTargets (ipOctets 192 168 1 10) 24).Nodup
    ∧ (sweepTargets (ipOctets 192 168 1 10) 24).length = 255 := by
  refine ⟨?_, by decide, by decide⟩
  intro a
  have e0 : ipOctets 192 168 1 0 = 3232235776 := by norm_num [ipOctets]
  have e10 : ipOctets 192 168 1 10 = 3232235786 := by norm_num [ipOctets]
  have e255 : ipOctets 192 168 1 255 = 3232236031 := by norm_num [ipOctets]
  have hn : networkAddress 3232235786 24 = 3232235776 := by norm_num [networkAddress, hostBits]
  have hb : 2 ^ hostBits 24 = 256 := by norm_num [hostBits]
  rw [e0, e10, e255]
  simp only [sweepTargets, ipnetworkIter, e10, hn, hb, List.mem_filter, List.mem_map,
    List.mem_range, decide_eq_true_eq]
  constructor
  · rintro ⟨⟨i, hi, rfl⟩, hne⟩
    refine ⟨by omega, by omega, hne⟩
  · rintro ⟨h1, h2, h3⟩
    exact ⟨⟨a - 3232235776, by omega, by omega⟩, h3⟩

set_option maxRecDepth 4096 in
/-- Claim C7: building an ARP request frame as scanner.rs
send_arp_request writes it and parsing the resulting bytes through the
pnet packet views yields back the inputs — Ethernet destination
broadcast, ethertype ARP, operation Request, sender hardware/protocol
address equal to the probing interface, target hardware address
all-zero and target protocol address equal to the probed host. -/
theorem c7_arp_request_roundtrip (source_mac : Mac6) (source_ip target_ip : Ip4)
    (_hm : validMac source_mac) (_hs : validIp source_ip) (_ht : validIp target_ip) :
    parseArpFrame (buildArpRequest source_mac source_ip target_ip) =
      some { eth_dest := macBroadcast, eth_src := source_mac, ethertype := 2054,
             operation := 1, sender_hw := source_mac, sender_proto := source_ip,
             target_hw := macZero, target_proto := target_ip } :=
  rfl

set_option maxRecDepth 4096 in
/-- Witness for C7 at the scenario addresses 192.168.1.10 to
192.168.1.5 with a concrete valid interface MAC. -/
theorem c7_arp_request_roundtrip_witness :
    validMac macA ∧ validIp ⟨192, 168, 1, 10⟩ ∧ validIp ⟨192, 168, 1, 5⟩
    ∧ parseArpFrame (buildArpRequest macA ⟨192, 168, 1, 10⟩ ⟨192, 168, 1, 5⟩) =
        some { eth_dest := macBroadcast, eth_src := macA, ethertype := 2054,
               operation := 1, sender_hw := macA, sender_proto := ⟨192, 168, 1, 10⟩,
               target_hw := macZero, target_proto := ⟨192, 168, 1, 5⟩ } :=
  ⟨by decide, by decide, by decide,
   c7_arp_request_roundtrip macA ⟨192, 168, 1, 10⟩ ⟨192, 168, 1, 5⟩
     (by decide) (by decide) (by decide)⟩

/-- Claim C8: across every sequence of registry operations appearing
in the program (observation upsert, liveness tick, kill/restore and
selection sweeps, UI insert) the key set never shrinks, the registry
size is monotonically non-decreasing, and key uniqueness — exactly one
record per identity — is preserved. -/
theorem c8_registry_never_shrinks (ops : List RegistryOp) (r : Registry) :
    (∀ k, k ∈ regKeys r → k ∈ regKeys (applyOps r ops))
    ∧ r.length ≤ (applyOps r ops).length
    ∧ ((regKeys r).Nodup → (regKeys (applyOps r ops)).Nodup) := by
  induction ops generalizing r with
  | nil => exact ⟨fun k h => h, le_refl _, fun h => h⟩
  | cons op rest ih =>
    have h1 := regKeys_applyOp_sub r op
    have h2 := length_applyOp r op
    have h3 := regKeys_applyOp_nodup r op
    have ihr := ih (applyOp r op)
    exact ⟨fun k hk => ihr.1 k (h1 k hk), le_trans h2 ihr.2.1, fun hn => ihr.2.2 (h3 hn)⟩

/-- Witness for C8 on a concrete one-record registry and a concrete
run of three operations. -/
theorem c8_registry_never_shrinks_witness :
    ([("aa:bb:cc:dd:ee:ff", devA)] : Registry).length ≤
      (applyOps [("aa:bb:cc:dd:ee:ff", devA)]
        [RegistryOp.observe obsB, RegistryOp.disconnectAll, RegistryOp.livenessTick 100]).length
    ∧ (regKeys (applyOps [("aa:bb:cc:dd:ee:ff", devA)]
        [RegistryOp.observe obsB, RegistryOp.disconnectAll, RegistryOp.livenessTick 100])).Nodup :=
  ⟨(c8_registry_never_shrinks [RegistryOp.observe obsB, RegistryOp.disconnectAll,
      RegistryOp.livenessTick 100] [("aa:bb:cc:dd:ee:ff", devA)]).2.1,
   (c8_registry_never_shrinks [RegistryOp.observe obsB, RegistryOp.disconnectAll,
      RegistryOp.livenessTick 100] [("aa:bb:cc:dd:ee:ff", devA)]).2.2 (by decide)⟩

/-- Claim C9: in the rendered device table a killed device displays
Blocked regardless of its stored status; an un-killed device displays
its stored status, with Active as Active, Inactive as Inactive, and
both remaining stored statuses (Blocked, Unknown) as Unknown. -/
theorem c9_render_status (d : NetworkDevice) :
    (d.is_killed = true → renderStatusText d = "Blocked")
    ∧ (d.is_killed = false → d.status = DeviceStatus.Active → renderStatusText d = "Active")
    ∧ (d.is_killed = false → d.status = DeviceStatus.Inactive → renderStatusText d = "Inactive")
    ∧ (d.is_killed = false → d.status = DeviceStatus.Blocked → renderStatusText d = "Unknown")
    ∧ (d.is_killed = false → d.status = DeviceStatus.Unknown → renderStatusText d = "Unknown") := by
  refine ⟨fun hk => by simp [renderStatusText, hk],
    fun hk hs => by simp [renderStatusText, hk, hs],
    fun hk hs => by simp [renderStatusText, hk, hs],
    fun hk hs => by simp [renderStatusText, hk, hs],
    fun hk hs => by simp [renderStatusText, hk, hs]⟩

/-- Witness for C9: a killed device with stored status Blocked
displays Blocked, and the same record un-killed displays Unknown. -/
theorem c9_render_status_witness :
    renderStatusText killedStaleDevice = "Blocked"
    ∧ renderStatusText blockedNotKilledDevice = "Unknown" :=
  ⟨(c9_render_status killedStaleDevice).1 rfl,
   (c9_render_status blockedNotKilledDevice).2.2.2.1 rfl rfl⟩

/-- Claim C10: the scanner registry is keyed by MAC — a frame whose
source MAC matches an existing record updates that record's ip_address
in place, keeps the key set unchanged (no new record, so one record
per MAC survives an IP change) and emits no new-device event. -/
theorem c10_mac_keyed_update (r : Registry) (o : Observation) (d : NetworkDevice)
    (h : findDevice r o.mac = some d) :
    regKeys (upsertObserved r o).1 = regKeys r
    ∧ (upsertObserved r o).2 = none
    ∧ findDevice (upsertObserved r o).1 o.mac =
        some { d with ip_address := o.ip, last_arp_time := some o.time,
                      status := DeviceStatus.Active } := by
  refine ⟨?_, ?_, ?_⟩
  · simp only [upsertObserved, h]
    exact regKeys_updateDevice r o.mac _
  · simp [upsertObserved, h]
  · simp only [upsertObserved, h]
    rw [findDevice_updateDevice_self, h]
    rfl

/-- Witness for C10: re-observing the scenario host under a new DHCP
address keeps its single MAC-keyed record and updates the IP in
place. -/
theorem c10_mac_keyed_update_witness :
    (upsertObserved [("aa:bb:cc:dd:ee:ff", devA)] obsB).2 = none
    ∧ findDevice (upsertObserved [("aa:bb:cc:dd:ee:ff", devA)] obsB).1 obsB.mac =
        some { devA with ip_address := obsB.ip, last_arp_time := some obsB.time,
                         status := DeviceStatus.Active } :=
  ⟨(c10_mac_keyed_update [("aa:bb:cc:dd:ee:ff", devA)] obsB devA (by decide)).2.1,
   (c10_mac_keyed_update [("aa:bb:cc:dd:ee:ff", devA)] obsB devA (by decide)).2.2⟩
